/-
Verification of the HighCastPlayer repository-synchronization orchestrator
(`sync_to_github.py`) and the recommendation scoring script
(`src/scripts/recommendation-script.py`).

The Python code is shallowly embedded: each operation becomes a Lean
function over explicit inputs.  External command execution is modelled by an
environment that records, for every command the run may issue, the
`CmdResult` (exit code, stdout, stderr) that the outside world returns.  A
run of the orchestrator produces its boolean outcome together with the
ordered trace of observable events (commands issued, ignore-file creation,
ignore-file appends).  Numeric values computed by the recommendation script
are modelled as rationals.
-/
import Mathlib

namespace HighCast

/-! ## String helpers mirroring Python primitives -/

/-- Membership of `pat` as a contiguous sublist of `s` (Python's `in` on strings). -/
def subList : List Char → List Char → Bool
  | pat, [] => pat.isEmpty
  | pat, c :: t => pat.isPrefixOf (c :: t) || subList pat t

/-- Python `pat in s` for strings. -/
def strContains (s pat : String) : Bool := subList pat.data s.data

/-- Python `pat in s.lower()` for an ASCII pattern. -/
def strContainsLower (s pat : String) : Bool :=
  subList pat.data (s.data.map Char.toLower)

/-- Python `s.strip()`: remove leading and trailing whitespace. -/
def pyStrip (s : String) : String :=
  ⟨((s.data.dropWhile Char.isWhitespace).reverse.dropWhile Char.isWhitespace).reverse⟩

/-! ## Command executor (`run_command`) -/

/-- Result of one external command (`subprocess.run`): exit code and the two
captured output streams. -/
structure CmdResult where
  returncode : Int
  stdout : String
  stderr : String
deriving DecidableEq

/-- Classification of a command result, as the spec names it. -/
inductive Classification
  | OK
  | WARNING
  | ERROR
deriving DecidableEq

/-- Classification implemented by `run_command` (sync_to_github.py lines 64-73):
the stderr inspection happens only under `if result.stderr:`, i.e. only when
stderr is non-empty; inside it, `ERROR` when stderr contains `"error:"`
(lower-cased) without `"warning:"`, or the exit code is non-zero; else
`WARNING` when `"warning:"` occurs; else informational (`OK`). -/
def classify (r : CmdResult) : Classification :=
  if r.stderr == "" then .OK
  else if (strContainsLower r.stderr "error:" && !strContainsLower r.stderr "warning:")
          || r.returncode != 0 then .ERROR
  else if strContainsLower r.stderr "warning:" then .WARNING
  else .OK

/-- Modelled from the spec: the spec's classification rule (§4.1), which does
not restrict the inspection to non-empty stderr. -/
def classifySpec (r : CmdResult) : Classification :=
  if (strContainsLower r.stderr "error:" && !strContainsLower r.stderr "warning:")
      || r.returncode != 0 then .ERROR
  else if strContainsLower r.stderr "warning:" then .WARNING
  else .OK

/-- Whether a call with `check_error` raises this result's classification as
an error: `run_command` raises `GitSyncException` exactly when `check_error`
holds and the classification branch of lines 66-69 fires. -/
def run_command_raises (r : CmdResult) (check_error : Bool) : Bool :=
  check_error && (classify r == .ERROR)

/-- Raise condition for a `check_error=True` call. -/
def raisesOn (r : CmdResult) : Bool := classify r == .ERROR

example : classify ⟨0, "", ""⟩ = .OK := by decide
example : classify ⟨0, "", "error: bad"⟩ = .ERROR := by decide
example : classify ⟨0, "", "warning: error: bad"⟩ = .WARNING := by decide
example : classify ⟨1, "", "hint"⟩ = .ERROR := by decide
example : classify ⟨1, "", ""⟩ = .OK := by decide
example : classifySpec ⟨1, "", ""⟩ = .ERROR := by decide

/-! ## Configuration constants (sync_to_github.py lines 24-38) -/

def REMOTE_URL : String := "https://github.com/tootallderr/HighCastPlayer"

def DEFAULT_BRANCH : String := "main"

/-- `COMMIT_MESSAGE` is computed from `datetime.now()` at import time; the
timestamp string is a parameter of the model. -/
def COMMIT_MESSAGE (now : String) : String := "📝 Auto-sync on " ++ now

def INITIAL_COMMIT_MESSAGE : String := "📦 Initial commit"

/-! ## Commands and observable events -/

/-- The external commands `sync_to_github` may issue, one constructor per
distinct command line (branch names and paths as payloads). -/
inductive GitCmd
  | version
  | ping
  | gc
  | forEachRef
  | init
  | lsRemoteUrl
  | remoteAdd
  | remoteList
  | remoteSetUrl
  | config (key val : String)
  | countObjects
  | addGitignore
  | branchShowCurrent
  | revParseAbbrev
  | checkIgnore
  | resetHead (p : String)
  | addAll
  | addDir (d : String)
  | diffCached
  | diffUnstaged
  | lsFilesOthers
  | revParseVerifyHead
  | commit (msg : String)
  | lsRemoteHeads (br : String)
  | pull (br : String)
  | mergeAbort
  | pushForce (br : String)
  | pushSetUpstream (br : String)
  | credHelper
deriving DecidableEq

/-- Observable events of one orchestrator run, in order: a command issued, the
ignore file created with the default ruleset, or a path appended to it. -/
inductive Ev
  | cmd (c : GitCmd)
  | createIgnore
  | appendIgnore (p : String)
deriving DecidableEq

/-! ## Environment: the world's responses to one run -/

/-- A file met by the `os.walk` of `auto_ignore_large_files`: the directory
part of its path (`root`), its path relative to the repository (separators
normalized), and its size in bytes — `none` when `os.path.getsize` raises. -/
structure FileEntry where
  root : String
  relPath : String
  sizeBytes : Option Nat
deriving DecidableEq

/-- The state of the outside world for one run: filesystem facts plus the
result the external tool returns for each command the run may issue.
Commands whose result the script never reads have no field. -/
structure Env where
  gitDirExists : Bool
  gitignoreExists : Bool
  files : List FileEntry
  dirs : List String
  now : String
  version : CmdResult
  ping : CmdResult
  initRes : CmdResult
  lsRemoteUrl : CmdResult
  remoteAdd : CmdResult
  remoteList : CmdResult
  remoteSetUrl : CmdResult
  cfgAutocrlf : CmdResult
  cfgRenameLimit : CmdResult
  cfgRenames : CmdResult
  addGitignoreRes : CmdResult
  branchShowCurrent : CmdResult
  revParseAbbrev : CmdResult
  addAllRes : CmdResult
  diffCached : CmdResult
  diffUnstaged : CmdResult
  lsFilesOthers : CmdResult
  revParseVerifyHead : CmdResult
  commitInitial : CmdResult
  commitSync : CmdResult
  lsRemoteHeads : CmdResult
  pullRes : CmdResult
  pushForceRes : CmdResult
  pushSetUpstreamRes : CmdResult
deriving DecidableEq

/-! ## Leaf operations -/

/-- `get_current_branch` (lines 83-98), as a function of the two query
results.  Both queries use `check_error=True`, so a result classified `ERROR`
raises `GitSyncException` (modelled as `Except.error ()`).  Returns the
resolved name together with the commands issued. -/
def get_current_branch (r1 r2 : CmdResult) : Except Unit String × List Ev :=
  if raisesOn r1 then (.error (), [.cmd .branchShowCurrent])
  else if r1.returncode == 0 && pyStrip r1.stdout != "" then
    (.ok (pyStrip r1.stdout), [.cmd .branchShowCurrent])
  else if raisesOn r2 then (.error (), [.cmd .branchShowCurrent, .cmd .revParseAbbrev])
  else if r2.returncode == 0 && pyStrip r2.stdout != "" && pyStrip r2.stdout != "HEAD" then
    (.ok (pyStrip r2.stdout), [.cmd .branchShowCurrent, .cmd .revParseAbbrev])
  else (.ok DEFAULT_BRANCH, [.cmd .branchShowCurrent, .cmd .revParseAbbrev])

/-- `has_changes` (lines 106-117): staged diff, unstaged diff, untracked
files; all three probes use `check_error=False`. -/
def has_changes (env : Env) : Bool :=
  env.diffCached.returncode != 0 || env.diffUnstaged.returncode != 0
    || pyStrip env.lsFilesOthers.stdout != ""

/-- Events issued by `has_changes`. -/
def hasChangesEvs : List Ev := [.cmd .diffCached, .cmd .diffUnstaged, .cmd .lsFilesOthers]

/-- Default `.gitignore` ruleset (lines 161-213). -/
def default_ignores : List String :=
  ["# Python", "__pycache__/", "*.py[cod]", "*$py.class", "*.so", ".Python",
   "build/", "develop-eggs/", "dist/", "downloads/", "eggs/", ".eggs/",
   "lib/", "lib64/", "parts/", "sdist/", "var/", "wheels/", "*.egg-info/",
   ".installed.cfg", "*.egg", "MANIFEST", "",
   "# Environments", ".env", ".venv", "env/", "venv/", "ENV/", "env.bak/",
   "venv.bak/", "",
   "# Logs", "*.log", "sync_log.txt", "",
   "# IDE files", ".idea/", ".vscode/", "*.swp", "*.swo", "",
   "# OS specific", ".DS_Store", "Thumbs.db", "",
   "# Project specific", "backend/data/temp/", "backend/data/cache/",
   "node_modules/", "package-lock.json"]

/-- Contents written on creation: `'\n'.join(default_ignores)` (line 216). -/
def defaultGitignoreText : String := String.intercalate "\n" default_ignores

/-- `check_and_create_gitignore` (lines 153-221) over the ignore file's state
(`none` = absent, `some c` = present with contents `c`).  Returns whether the
file was created, together with the file's state afterwards. -/
def check_and_create_gitignore : Option String → Bool × Option String
  | none => (true, some defaultGitignoreText)
  | some c => (false, some c)

/-- Large files selected by `auto_ignore_large_files` (lines 223-239): the
walk skips any root containing `".git"` as a substring; a `getsize` failure
skips the file; files strictly above `90 * 1024 * 1024` bytes (i.e. whose
size in MB exceeds `LARGE_FILE_THRESHOLD_MB = 90`) are selected. -/
def largeFilesOf (files : List FileEntry) : List String :=
  files.filterMap fun f =>
    if strContains f.root ".git" then none
    else match f.sizeBytes with
      | none => none
      | some sz => if 90 * 1024 * 1024 < sz then some f.relPath else none

/-- `auto_ignore_large_files` (lines 223-249): for each selected file, append
its relative path to the ignore file and issue a targeted
`git reset HEAD "<path>"` (with `check_error=False`). -/
def auto_ignore_large_files (files : List FileEntry) : List Ev :=
  (largeFilesOf files).flatMap fun p => [.appendIgnore p, .cmd (.resetHead p)]

/-! ## Orchestrator (`sync_to_github`, lines 251-402)

Each stage returns the boolean outcome so far (or a terminal outcome) and
the events it issued; callers concatenate traces.  `GitSyncException`
raised by a `check_error=True` call is caught by the handler at lines
397-399, turning the run's outcome into `False`. -/

/-- PUSH stage (lines 374-392): force-push, then handle authentication
failure, missing upstream (retry with `--set-upstream`, `check_error=True`),
or any other failure. -/
def sync_push (env : Env) (branch : String) : Bool × List Ev :=
  let pr := env.pushForceRes
  let t1 : List Ev := [.cmd (.pushForce branch)]
  if pr.returncode != 0 then
    if strContains pr.stderr "Authentication failed" then
      (false, t1 ++ [.cmd .credHelper])
    else if strContains pr.stderr "has no upstream branch" then
      let t2 := t1 ++ [.cmd (.pushSetUpstream branch)]
      if raisesOn env.pushSetUpstreamRes then (false, t2) else (true, t2)
    else (false, t1)
  else (true, t1)

/-- Lines 339-392: change probe, commit (initial or timestamped), optional
pull with conflict check, then push. -/
def sync_after_stage (env : Env) (branch : String) : Bool × List Ev :=
  if !has_changes env then (true, hasChangesEvs)
  else
    let t1 := hasChangesEvs ++ [Ev.cmd .revParseVerifyHead]
    if env.revParseVerifyHead.returncode != 0 then
      let t2 := t1 ++ [Ev.cmd (.commit INITIAL_COMMIT_MESSAGE)]
      if raisesOn env.commitInitial then (false, t2)
      else (true, t2 ++ [Ev.cmd (.pushSetUpstream branch)])
    else
      let t2 := t1 ++ [Ev.cmd (.commit (COMMIT_MESSAGE env.now))]
      if raisesOn env.commitSync then (false, t2)
      else
        let t3 := t2 ++ [Ev.cmd (.lsRemoteHeads branch)]
        if env.lsRemoteHeads.returncode == 0 && pyStrip env.lsRemoteHeads.stdout != "" then
          let t4 := t3 ++ [Ev.cmd (.pull branch)]
          if strContains (env.pullRes.stdout ++ env.pullRes.stderr) "CONFLICT" then
            (false, t4 ++ [Ev.cmd .mergeAbort])
          else
            let p := sync_push env branch
            (p.1, t4 ++ p.2)
        else
          let p := sync_push env branch
          (p.1, t3 ++ p.2)

/-- Lines 306-337: second `check_and_create_gitignore` call (plus
`git add .gitignore` when it created the file), branch resolution, the
`check-ignore` probe, the large-file guard, and staging with the
per-directory fallback. -/
def sync_common (env : Env) (ignoreExists : Bool) : Bool × List Ev :=
  let created := !ignoreExists
  let t0 : List Ev := if created then [.createIgnore, .cmd .addGitignore] else []
  if created && raisesOn env.addGitignoreRes then (false, t0)
  else
    let br := get_current_branch env.branchShowCurrent env.revParseAbbrev
    let t1 := t0 ++ br.2
    match br.1 with
    | .error _ => (false, t1)
    | .ok branch =>
      let t2 := t1 ++ [Ev.cmd .checkIgnore] ++ auto_ignore_large_files env.files
      let t3 := t2 ++ [Ev.cmd .addAll]
      if raisesOn env.addAllRes then
        let t4 := t3 ++ env.dirs.map (fun d => Ev.cmd (.addDir d))
        let p := sync_after_stage env branch
        (p.1, t4 ++ p.2)
      else
        let p := sync_after_stage env branch
        (p.1, t3 ++ p.2)

/-- `apply_git_configs` (lines 100-104): three `git config` calls, each with
`check_error=True`. -/
def apply_git_configs (env : Env) : Bool × List Ev :=
  let t1 : List Ev := [.cmd (.config "core.autocrlf" "true")]
  if raisesOn env.cfgAutocrlf then (false, t1)
  else
    let t2 := t1 ++ [Ev.cmd (.config "diff.renameLimit" "10000")]
    if raisesOn env.cfgRenameLimit then (false, t2)
    else
      let t3 := t2 ++ [Ev.cmd (.config "diff.renames" "true")]
      if raisesOn env.cfgRenames then (false, t3) else (true, t3)

/-- Tail of the existing-repository branch (lines 301-303): apply configs,
`check_repo_size` (whose internal errors are swallowed), then the common
continuation with the pre-run ignore-file state. -/
def sync_existing_rest (env : Env) : Bool × List Ev :=
  let c := apply_git_configs env
  if !c.1 then (false, c.2)
  else
    let t := c.2 ++ [Ev.cmd .countObjects]
    let p := sync_common env env.gitignoreExists
    (p.1, t ++ p.2)

/-- `sync_to_github` (lines 251-402): outcome and full event trace of one
run against `env`. -/
def sync_to_github (env : Env) : Bool × List Ev :=
  if raisesOn env.version then (false, [.cmd .version])
  else
    let t0 : List Ev := [.cmd .version, .cmd .ping]
    if env.ping.returncode != 0 then (false, t0)
    else
      let t1 := t0 ++ [Ev.cmd .gc, Ev.cmd .forEachRef]
      if !env.gitDirExists then
        let t2 := t1 ++ [Ev.cmd .init]
        if raisesOn env.initRes then (false, t2)
        else
          let t3 := t2 ++ [Ev.cmd .lsRemoteUrl]
          if env.lsRemoteUrl.returncode != 0 then (false, t3)
          else
            let t4 := t3 ++ [Ev.cmd .remoteAdd]
            if raisesOn env.remoteAdd then (false, t4)
            else
              let t5 := t4 ++ (if env.gitignoreExists then [] else [Ev.createIgnore])
              let c := apply_git_configs env
              if !c.1 then (false, t5 ++ c.2)
              else
                let p := sync_common env true
                (p.1, t5 ++ c.2 ++ p.2)
      else
        let t2 := t1 ++ [Ev.cmd .remoteList]
        if raisesOn env.remoteList then (false, t2)
        else if strContains env.remoteList.stdout "origin" then
          if strContains env.remoteList.stdout REMOTE_URL then
            let p := sync_existing_rest env
            (p.1, t2 ++ p.2)
          else
            let t3 := t2 ++ [Ev.cmd .remoteSetUrl]
            if raisesOn env.remoteSetUrl then (false, t3)
            else
              let p := sync_existing_rest env
              (p.1, t3 ++ p.2)
        else
          let t3 := t2 ++ [Ev.cmd .remoteAdd]
          if raisesOn env.remoteAdd then (false, t3)
          else
            let p := sync_existing_rest env
            (p.1, t3 ++ p.2)

/-! ## Concrete environments for witnesses and counterexamples -/

/-- A command that exits 0 with empty output. -/
def ok0 : CmdResult := ⟨0, "", ""⟩

/-- An existing, clean, correctly configured repository on branch `main`. -/
def baseEnv : Env where
  gitDirExists := true
  gitignoreExists := true
  files := []
  dirs := []
  now := "2026-10-12 00:00:00"
  version := ⟨0, "git version 2.43.0", ""⟩
  ping := ok0
  initRes := ok0
  lsRemoteUrl := ok0
  remoteAdd := ok0
  remoteList := ⟨0, "origin https://github.com/tootallderr/HighCastPlayer (fetch)", ""⟩
  remoteSetUrl := ok0
  cfgAutocrlf := ok0
  cfgRenameLimit := ok0
  cfgRenames := ok0
  addGitignoreRes := ok0
  branchShowCurrent := ⟨0, "main", ""⟩
  revParseAbbrev := ⟨0, "main", ""⟩
  addAllRes := ok0
  diffCached := ok0
  diffUnstaged := ok0
  lsFilesOthers := ok0
  revParseVerifyHead := ⟨0, "deadbeef", ""⟩
  commitInitial := ok0
  commitSync := ok0
  lsRemoteHeads := ⟨0, "deadbeef  refs/heads/main", ""⟩
  pullRes := ⟨0, "Already up to date.", ""⟩
  pushForceRes := ok0
  pushSetUpstreamRes := ok0

example : (sync_to_github baseEnv).1 = true := by decide
example : (sync_to_github baseEnv).2 =
    [.cmd .version, .cmd .ping, .cmd .gc, .cmd .forEachRef, .cmd .remoteList,
     .cmd (.config "core.autocrlf" "true"), .cmd (.config "diff.renameLimit" "10000"),
     .cmd (.config "diff.renames" "true"), .cmd .countObjects,
     .cmd .branchShowCurrent, .cmd .checkIgnore, .cmd .addAll,
     .cmd .diffCached, .cmd .diffUnstaged, .cmd .lsFilesOthers] := by decide

/-! ## C1: exception behaviour of `run_command` -/

/-- C1 counterexample: a command that exits non-zero with empty stderr is
classified `ERROR` by the spec's rule, yet `run_command` with
`check_error=True` does not raise, because the classification code runs only
under `if result.stderr:`.  The claim's "for every invocation with
check_error true and a non-zero exit code, the exception is raised" is
therefore false at this input. -/
theorem C1_counterexample :
    classifySpec ⟨1, "", ""⟩ = .ERROR ∧ run_command_raises ⟨1, "", ""⟩ true = false := by
  decide

/-- C1 (amended): `run_command` raises the command-failure exception iff
`check_error` is true AND stderr is non-empty AND (stderr contains the error
marker without the warning marker, or the exit code is non-zero).  With empty
stderr it never raises, whatever the exit code. -/
theorem C1_run_command_raises_iff (r : CmdResult) (ce : Bool) :
    run_command_raises r ce = true ↔
      ce = true ∧ r.stderr ≠ "" ∧
        ((strContainsLower r.stderr "error:" = true
            ∧ strContainsLower r.stderr "warning:" = false)
          ∨ r.returncode ≠ 0) := by
  unfold run_command_raises classify
  split_ifs with h1 h2 h3 <;>
    simp_all [Bool.and_eq_true, Bool.or_eq_true, Bool.not_eq_true', bne_iff_ne]

/-! ## C9: `check_and_create_gitignore` -/

/-- C9: `check_and_create_gitignore` creates the ignore file with the fixed
default ruleset exactly when it is absent (returning `true`); an existing
file is returned unchanged with `false`; running it twice is the same as
running it once. -/
theorem C9_check_and_create_gitignore :
    check_and_create_gitignore none = (true, some defaultGitignoreText)
    ∧ (∀ c : String, check_and_create_gitignore (some c) = (false, some c))
    ∧ ∀ fs : Option String,
        check_and_create_gitignore (check_and_create_gitignore fs).2
          = (false, (check_and_create_gitignore fs).2) := by
  refine ⟨rfl, fun c => rfl, fun fs => ?_⟩
  cases fs <;> rfl

/-! ## C7: the large-file guard -/

lemma count_appendIgnore_flatMap (l : List String) (p : String) :
    ((l.flatMap fun q => [Ev.appendIgnore q, Ev.cmd (.resetHead q)]).count
        (Ev.appendIgnore p)) = l.count p := by
  induction l with
  | nil => rfl
  | cons a t ih =>
    simp only [List.flatMap_cons, List.count_append, ih, List.count_cons,
      List.count_nil]
    by_cases h : p = a <;> simp [h] <;> omega

lemma largeFilesOf_sublist (files : List FileEntry) :
    List.Sublist (largeFilesOf files) (files.map FileEntry.relPath) := by
  induction files with
  | nil => simp [largeFilesOf]
  | cons f t ih =>
    by_cases hg : strContains f.root ".git" = true
    · have h : largeFilesOf (f :: t) = largeFilesOf t := by
        unfold largeFilesOf; simp [List.filterMap_cons, hg]
      rw [h, List.map_cons]; exact ih.cons _
    · cases hs : f.sizeBytes with
      | none =>
        have h : largeFilesOf (f :: t) = largeFilesOf t := by
          unfold largeFilesOf; simp [List.filterMap_cons, hg, hs]
        rw [h, List.map_cons]; exact ih.cons _
      | some sz =>
        by_cases hb : 90 * 1024 * 1024 < sz
        · have h : largeFilesOf (f :: t) = f.relPath :: largeFilesOf t := by
            unfold largeFilesOf; simp [List.filterMap_cons, hg, hs, hb]
          rw [h, List.map_cons]; exact ih.cons₂ _
        · have h : largeFilesOf (f :: t) = largeFilesOf t := by
            unfold largeFilesOf; simp [List.filterMap_cons, hg, hs, hb]
          rw [h, List.map_cons]; exact ih.cons _

lemma mem_largeFilesOf (files : List FileEntry) (f : FileEntry) (sz : Nat)
    (hmem : f ∈ files) (hroot : strContains f.root ".git" = false)
    (hsz : f.sizeBytes = some sz) (hbig : 90 * 1024 * 1024 < sz) :
    f.relPath ∈ largeFilesOf files := by
  apply List.mem_filterMap.mpr
  exact ⟨f, hmem, by simp [hroot, hsz, hbig]⟩

lemma largeFilesOf_skip (a b : List FileEntry) (g : FileEntry)
    (hg : g.sizeBytes = none) :
    largeFilesOf (a ++ g :: b) = largeFilesOf (a ++ b) := by
  unfold largeFilesOf
  simp [List.filterMap_append, List.filterMap_cons, hg]

/-- C7 counterexample: the walk of `auto_ignore_large_files` skips every root
containing `".git"` as a substring (`if ".git" in root: continue`), not only
the version-control internal directory.  A 95 MB file inside the working-tree
directory `/repo/assets.gitx` — outside the internal `/repo/.git` store — is
above the threshold, yet the scan appends nothing and issues no reset. -/
theorem C7_counterexample :
    auto_ignore_large_files
      [⟨"/repo/assets.gitx", "assets.gitx/big.bin", some (95 * 1024 * 1024)⟩] = [] := by
  decide

/-- C7 (amended): for every walked file whose root directory does not contain
`".git"` as a substring (rather than: is outside the internal directory),
with readable size strictly above the 90 MB threshold, one scan appends its
relative path to the ignore file exactly once and issues a targeted
`git reset HEAD` for it; and a file whose size read fails is skipped while
the scan continues over all remaining files. -/
theorem C7_auto_ignore_large_files (files : List FileEntry) (f : FileEntry) (sz : Nat)
    (hnd : (files.map FileEntry.relPath).Nodup) (hmem : f ∈ files)
    (hroot : strContains f.root ".git" = false) (hsz : f.sizeBytes = some sz)
    (hbig : 90 * 1024 * 1024 < sz) :
    ((auto_ignore_large_files files).count (Ev.appendIgnore f.relPath) = 1
      ∧ Ev.cmd (.resetHead f.relPath) ∈ auto_ignore_large_files files)
    ∧ ∀ (a b : List FileEntry) (g : FileEntry), g.sizeBytes = none →
        auto_ignore_large_files (a ++ g :: b) = auto_ignore_large_files (a ++ b) := by
  have hmemL : f.relPath ∈ largeFilesOf files :=
    mem_largeFilesOf files f sz hmem hroot hsz hbig
  refine ⟨⟨?_, ?_⟩, ?_⟩
  · rw [auto_ignore_large_files, count_appendIgnore_flatMap]
    have hle : (largeFilesOf files).count f.relPath
        ≤ (files.map FileEntry.relPath).count f.relPath :=
      (largeFilesOf_sublist files).count_le f.relPath
    have hone : (files.map FileEntry.relPath).count f.relPath = 1 :=
      List.count_eq_one_of_mem hnd (List.mem_map_of_mem FileEntry.relPath hmem)
    have hpos : 0 < (largeFilesOf files).count f.relPath :=
      List.count_pos_iff.mpr hmemL
    omega
  · rw [auto_ignore_large_files]
    exact List.mem_flatMap.mpr ⟨f.relPath, hmemL, by simp⟩
  · intro a b g hg
    rw [auto_ignore_large_files, auto_ignore_large_files, largeFilesOf_skip a b g hg]

/-- C7 witness: a single 95 MB readable file outside any `".git"` root is
appended once and unstaged. -/
theorem C7_witness :
    ((auto_ignore_large_files [⟨"/repo/data", "data/huge.bin", some (95 * 1024 * 1024)⟩]).count
        (Ev.appendIgnore "data/huge.bin") = 1
      ∧ Ev.cmd (.resetHead "data/huge.bin")
          ∈ auto_ignore_large_files [⟨"/repo/data", "data/huge.bin", some (95 * 1024 * 1024)⟩])
    ∧ ∀ (a b : List FileEntry) (g : FileEntry), g.sizeBytes = none →
        auto_ignore_large_files (a ++ g :: b) = auto_ignore_large_files (a ++ b) :=
  C7_auto_ignore_large_files
    [⟨"/repo/data", "data/huge.bin", some (95 * 1024 * 1024)⟩]
    ⟨"/repo/data", "data/huge.bin", some (95 * 1024 * 1024)⟩
    (95 * 1024 * 1024) (by decide) (by decide) (by decide) rfl (by norm_num)

/-! ## C8: branch resolution -/

/-- C8 counterexample: `get_current_branch` is not total.  Both of its
queries run through `run_command` with the default `check_error=True`, so a
query whose result is classified `ERROR` (here: exit 128 with
`fatal: not a git repository` on stderr) raises `GitSyncException` out of
`get_current_branch`, contradicting "never fails". -/
theorem C8_counterexample :
    (get_current_branch ⟨128, "", "fatal: not a git repository"⟩ ok0).1
      = .error () := by
  rfl

/-- C8 (amended): whenever neither branch query is classified as an error,
`get_current_branch` returns a usable name along the fallback chain: the
trimmed `git branch --show-current` output when that query exited 0 with
non-empty output; else the trimmed `git rev-parse --abbrev-ref HEAD` output
when it exited 0 with non-empty output other than the `HEAD` placeholder;
else the fixed default `"main"`.  In particular a detached/unborn head
resolves to the default and a checked-out branch `feature-x` resolves to
`"feature-x"`.  If a query is classified as an error the exception
propagates. -/
theorem C8_get_current_branch (r1 r2 : CmdResult)
    (h1 : raisesOn r1 = false) (h2 : raisesOn r2 = false) :
    ((get_current_branch r1 r2).1 = .ok (
        if r1.returncode == 0 && pyStrip r1.stdout != "" then pyStrip r1.stdout
        else if r2.returncode == 0 && pyStrip r2.stdout != ""
            && pyStrip r2.stdout != "HEAD" then pyStrip r2.stdout
        else DEFAULT_BRANCH))
    ∧ (get_current_branch ⟨0, "", ""⟩ ⟨0, "HEAD", ""⟩).1 = .ok DEFAULT_BRANCH
    ∧ (get_current_branch ⟨0, "feature-x", ""⟩ ⟨0, "feature-x", ""⟩).1
        = .ok "feature-x" := by
  refine ⟨?_, by rfl, by rfl⟩
  unfold get_current_branch
  rw [if_neg (by simp [h1])]
  by_cases hc1 : (r1.returncode == 0 && pyStrip r1.stdout != "") = true
  · simp [hc1]
  · rw [if_neg hc1, if_neg (by simp [h2])]
    by_cases hc2 : (r2.returncode == 0 && pyStrip r2.stdout != ""
        && pyStrip r2.stdout != "HEAD") = true
    · simp [hc1, hc2]
    · simp [hc1, hc2]

/-- C8 witness: applying the amended theorem to a successful
`git branch --show-current` on `feature-x`. -/
theorem C8_witness :
    (get_current_branch ⟨0, "feature-x", ""⟩ ⟨0, "feature-x", ""⟩).1
      = .ok "feature-x" :=
  (C8_get_current_branch ⟨0, "main", ""⟩ ok0 (by decide) (by decide)).2.2

/-! ## Reach lemmas for the orchestrator -/

/-- With tool present, network up, an existing repository, a readable remote
listing naming `origin` with the expected URL, the run proceeds to
`sync_existing_rest`. -/
lemma sync_to_github_existing (env : Env)
    (hv : raisesOn env.version = false)
    (hp : env.ping.returncode = 0)
    (hg : env.gitDirExists = true)
    (hr : raisesOn env.remoteList = false)
    (ho : strContains env.remoteList.stdout "origin" = true)
    (hu : strContains env.remoteList.stdout REMOTE_URL = true) :
    sync_to_github env =
      ((sync_existing_rest env).1,
        [.cmd .version, .cmd .ping, .cmd .gc, .cmd .forEachRef, .cmd .remoteList]
          ++ (sync_existing_rest env).2) := by
  unfold sync_to_github
  simp [hv, hp, hg, hr, ho, hu]

/-- With the three `git config` calls succeeding, `sync_existing_rest`
proceeds to `sync_common`. -/
lemma sync_existing_rest_ok (env : Env)
    (h1 : raisesOn env.cfgAutocrlf = false)
    (h2 : raisesOn env.cfgRenameLimit = false)
    (h3 : raisesOn env.cfgRenames = false) :
    sync_existing_rest env =
      ((sync_common env env.gitignoreExists).1,
        [.cmd (.config "core.autocrlf" "true"), .cmd (.config "diff.renameLimit" "10000"),
         .cmd (.config "diff.renames" "true"), .cmd .countObjects]
          ++ (sync_common env env.gitignoreExists).2) := by
  unfold sync_existing_rest apply_git_configs
  simp [h1, h2, h3]

/-- With the ignore file already present, a successful branch query and a
successful bulk staging, `sync_common` proceeds to `sync_after_stage` on the
resolved branch. -/
lemma sync_common_true_ok (env : Env) (branch : String)
    (hb0 : raisesOn env.branchShowCurrent = false)
    (hb1 : env.branchShowCurrent.returncode = 0)
    (hb2 : pyStrip env.branchShowCurrent.stdout = branch)
    (hbne : branch ≠ "")
    (ha : raisesOn env.addAllRes = false) :
    sync_common env true =
      ((sync_after_stage env branch).1,
        [.cmd .branchShowCurrent, .cmd .checkIgnore]
          ++ auto_ignore_large_files env.files ++ [.cmd .addAll]
          ++ (sync_after_stage env branch).2) := by
  unfold sync_common get_current_branch
  simp [hb0, hb1, hb2, hbne, ha]

/-- With changes present, an existing `HEAD` commit, a successful timestamped
commit and an existing remote branch, the run pulls; a conflict marker in the
pull output then aborts the merge and the run. -/
lemma after_stage_conflict (env : Env) (branch : String)
    (hch : has_changes env = true)
    (hhead : env.revParseVerifyHead.returncode = 0)
    (hcmt : raisesOn env.commitSync = false)
    (hrb0 : env.lsRemoteHeads.returncode = 0)
    (hrb1 : pyStrip env.lsRemoteHeads.stdout ≠ "")
    (hconf : strContains (env.pullRes.stdout ++ env.pullRes.stderr) "CONFLICT" = true) :
    sync_after_stage env branch =
      (false, hasChangesEvs
        ++ [.cmd .revParseVerifyHead, .cmd (.commit (COMMIT_MESSAGE env.now)),
            .cmd (.lsRemoteHeads branch), .cmd (.pull branch), .cmd .mergeAbort]) := by
  unfold sync_after_stage
  simp [hch, hhead, hcmt, hrb0, hrb1, hconf]

/-! ## C2: merge conflicts abort the run -/

/-- C2: in every run that reaches the pull and whose pull output (stdout ++
stderr) contains the conflict marker `CONFLICT`, the orchestrator issues
`git merge --abort`, the outcome is unsuccessful, and nothing — in
particular no commit and no push — runs after the conflict is detected: the
trace ends with the pull followed immediately by the merge abort. -/
theorem C2_conflict_aborts (env : Env) (branch : String)
    (hv : raisesOn env.version = false)
    (hp : env.ping.returncode = 0)
    (hg : env.gitDirExists = true)
    (hr : raisesOn env.remoteList = false)
    (ho : strContains env.remoteList.stdout "origin" = true)
    (hu : strContains env.remoteList.stdout REMOTE_URL = true)
    (hc1 : raisesOn env.cfgAutocrlf = false)
    (hc2 : raisesOn env.cfgRenameLimit = false)
    (hc3 : raisesOn env.cfgRenames = false)
    (hig : env.gitignoreExists = true)
    (hb0 : raisesOn env.branchShowCurrent = false)
    (hb1 : env.branchShowCurrent.returncode = 0)
    (hb2 : pyStrip env.branchShowCurrent.stdout = branch)
    (hbne : branch ≠ "")
    (ha : raisesOn env.addAllRes = false)
    (hch : has_changes env = true)
    (hhead : env.revParseVerifyHead.returncode = 0)
    (hcmt : raisesOn env.commitSync = false)
    (hrb0 : env.lsRemoteHeads.returncode = 0)
    (hrb1 : pyStrip env.lsRemoteHeads.stdout ≠ "")
    (hconf : strContains (env.pullRes.stdout ++ env.pullRes.stderr) "CONFLICT" = true) :
    (sync_to_github env).1 = false
    ∧ ∃ pre, (sync_to_github env).2
        = pre ++ [.cmd (.pull branch), .cmd .mergeAbort] := by
  have e1 := sync_to_github_existing env hv hp hg hr ho hu
  have e2 := sync_existing_rest_ok env hc1 hc2 hc3
  rw [hig] at e2
  have e3 := sync_common_true_ok env branch hb0 hb1 hb2 hbne ha
  have e4 := after_stage_conflict env branch hch hhead hcmt hrb0 hrb1 hconf
  rw [e4] at e3
  rw [e3] at e2
  rw [e2] at e1
  rw [e1]
  refine ⟨rfl, ?_⟩
  refine ⟨[.cmd .version, .cmd .ping, .cmd .gc, .cmd .forEachRef, .cmd .remoteList]
      ++ ([.cmd (.config "core.autocrlf" "true"), .cmd (.config "diff.renameLimit" "10000"),
           .cmd (.config "diff.renames" "true"), .cmd .countObjects]
        ++ ([.cmd .branchShowCurrent, .cmd .checkIgnore]
          ++ auto_ignore_large_files env.files ++ [.cmd .addAll]
          ++ (hasChangesEvs
            ++ [.cmd .revParseVerifyHead, .cmd (.commit (COMMIT_MESSAGE env.now)),
                .cmd (.lsRemoteHeads branch)]))), ?_⟩
  simp [hasChangesEvs]

/-- An existing repository with staged changes whose pull reports a merge
conflict. -/
def conflictEnv : Env :=
  { baseEnv with
    diffCached := ⟨1, "", ""⟩
    pullRes := ⟨0, "CONFLICT (content): Merge conflict in a.txt", ""⟩ }

/-- C2 witness: the conflicting pull aborts the run with the merge abort as
the final command. -/
theorem C2_witness :
    (sync_to_github conflictEnv).1 = false
    ∧ ∃ pre, (sync_to_github conflictEnv).2
        = pre ++ [.cmd (.pull "main"), .cmd .mergeAbort] :=
  C2_conflict_aborts conflictEnv "main" (by decide) (by decide) (by decide)
    (by decide) (by decide) (by decide) (by decide) (by decide) (by decide)
    (by decide) (by decide) (by decide) (by decide) (by decide) (by decide)
    (by decide) (by decide) (by decide) (by decide) (by decide) (by decide)

/-! ## Shape of the large-file guard's events -/

lemma auto_ignore_events (files : List FileEntry) (e : Ev)
    (h : e ∈ auto_ignore_large_files files) :
    (∃ p, e = .appendIgnore p) ∨ (∃ p, e = .cmd (.resetHead p)) := by
  unfold auto_ignore_large_files at h
  rcases List.mem_flatMap.mp h with ⟨p, _, hp⟩
  simp only [List.mem_cons, List.not_mem_nil, or_false] at hp
  rcases hp with h | h
  · exact Or.inl ⟨p, h⟩
  · exact Or.inr ⟨p, h⟩

lemma cmd_not_mem_auto_ignore (files : List FileEntry) (c : GitCmd)
    (h : ∀ p, c ≠ .resetHead p) :
    Ev.cmd c ∉ auto_ignore_large_files files := by
  intro hm
  rcases auto_ignore_events files _ hm with ⟨p, hp⟩ | ⟨p, hp⟩
  · exact absurd hp (by simp)
  · exact h p (by injection hp)

/-- Commits in an event list. -/
def isCommitEv : Ev → Bool
  | .cmd (.commit _) => true
  | _ => false

lemma filter_isCommitEv_auto_ignore (files : List FileEntry) :
    (auto_ignore_large_files files).filter isCommitEv = [] := by
  rw [List.filter_eq_nil_iff]
  intro e he
  rcases auto_ignore_events files e he with ⟨p, rfl⟩ | ⟨p, rfl⟩ <;> simp [isCommitEv]

/-! ## Reach lemmas for the first-run path -/

/-- With no repository present, a successful `git init`, a reachable remote,
a successful remote registration, the ignore file absent (so created here)
and the configs applied, the run proceeds to `sync_common` with the ignore
file now existing. -/
lemma sync_to_github_init (env : Env)
    (hv : raisesOn env.version = false)
    (hp : env.ping.returncode = 0)
    (hg : env.gitDirExists = false)
    (hi : raisesOn env.initRes = false)
    (hlr : env.lsRemoteUrl.returncode = 0)
    (hra : raisesOn env.remoteAdd = false)
    (hgi : env.gitignoreExists = false)
    (hc1 : raisesOn env.cfgAutocrlf = false)
    (hc2 : raisesOn env.cfgRenameLimit = false)
    (hc3 : raisesOn env.cfgRenames = false) :
    sync_to_github env =
      ((sync_common env true).1,
        [.cmd .version, .cmd .ping, .cmd .gc, .cmd .forEachRef, .cmd .init,
         .cmd .lsRemoteUrl, .cmd .remoteAdd, .createIgnore,
         .cmd (.config "core.autocrlf" "true"), .cmd (.config "diff.renameLimit" "10000"),
         .cmd (.config "diff.renames" "true")] ++ (sync_common env true).2) := by
  unfold sync_to_github apply_git_configs
  simp [hv, hp, hg, hi, hlr, hra, hgi, hc1, hc2, hc3]

/-- With changes present and no `HEAD` commit yet, the run creates the fixed
initial commit and pushes with upstream registration; the push result is not
inspected. -/
lemma after_stage_initial (env : Env) (branch : String)
    (hch : has_changes env = true)
    (hnh : env.revParseVerifyHead.returncode ≠ 0)
    (hcmt : raisesOn env.commitInitial = false) :
    sync_after_stage env branch =
      (true, hasChangesEvs
        ++ [.cmd .revParseVerifyHead, .cmd (.commit INITIAL_COMMIT_MESSAGE),
            .cmd (.pushSetUpstream branch)]) := by
  unfold sync_after_stage
  simp [hch, hcmt, bne_iff_ne, hnh]

/-! ## C4: the first-ever run -/

/-- C4: a first-ever run on a directory with no repository (tool present,
network and remote reachable, no ignore file, files staged, no prior
commit): the orchestrator initializes the repository, registers the remote,
creates the ignore file, creates exactly one commit — with the fixed initial
message, not the timestamped one — and pushes with upstream-tracking
registration; no pull command is ever issued. -/
theorem C4_first_run (env : Env) (branch : String)
    (hv : raisesOn env.version = false)
    (hp : env.ping.returncode = 0)
    (hg : env.gitDirExists = false)
    (hi : raisesOn env.initRes = false)
    (hlr : env.lsRemoteUrl.returncode = 0)
    (hra : raisesOn env.remoteAdd = false)
    (hgi : env.gitignoreExists = false)
    (hc1 : raisesOn env.cfgAutocrlf = false)
    (hc2 : raisesOn env.cfgRenameLimit = false)
    (hc3 : raisesOn env.cfgRenames = false)
    (hb0 : raisesOn env.branchShowCurrent = false)
    (hb1 : env.branchShowCurrent.returncode = 0)
    (hb2 : pyStrip env.branchShowCurrent.stdout = branch)
    (hbne : branch ≠ "")
    (ha : raisesOn env.addAllRes = false)
    (hch : has_changes env = true)
    (hnh : env.revParseVerifyHead.returncode ≠ 0)
    (hcmt : raisesOn env.commitInitial = false) :
    (sync_to_github env).1 = true
    ∧ Ev.cmd .init ∈ (sync_to_github env).2
    ∧ Ev.cmd .remoteAdd ∈ (sync_to_github env).2
    ∧ Ev.createIgnore ∈ (sync_to_github env).2
    ∧ (sync_to_github env).2.filter isCommitEv
        = [Ev.cmd (.commit INITIAL_COMMIT_MESSAGE)]
    ∧ Ev.cmd (.pushSetUpstream branch) ∈ (sync_to_github env).2
    ∧ ∀ b, Ev.cmd (.pull b) ∉ (sync_to_github env).2 := by
  have e1 := sync_to_github_init env hv hp hg hi hlr hra hgi hc1 hc2 hc3
  have e2 := sync_common_true_ok env branch hb0 hb1 hb2 hbne ha
  have e3 := after_stage_initial env branch hch hnh hcmt
  rw [e3] at e2
  rw [e2] at e1
  rw [e1]
  refine ⟨rfl, by simp, by simp, by simp, ?_, by simp [hasChangesEvs], ?_⟩
  · simp only [List.filter_append, filter_isCommitEv_auto_ignore, hasChangesEvs]
    simp [isCommitEv]
  · intro b
    have hpull : Ev.cmd (.pull b) ∉ auto_ignore_large_files env.files :=
      cmd_not_mem_auto_ignore env.files _ (by intro p h; cases h)
    simp [hasChangesEvs, List.mem_append, hpull]

/-- A first-ever run: no repository, no ignore file, untracked files to
commit, no prior `HEAD`. -/
def firstRunEnv : Env :=
  { baseEnv with
    gitDirExists := false
    gitignoreExists := false
    lsFilesOthers := ⟨0, "main.py", ""⟩
    revParseVerifyHead := ⟨128, "", ""⟩ }

/-- C4 witness: the first-ever run at a concrete environment. -/
theorem C4_witness :
    (sync_to_github firstRunEnv).1 = true
    ∧ Ev.cmd .init ∈ (sync_to_github firstRunEnv).2
    ∧ Ev.cmd .remoteAdd ∈ (sync_to_github firstRunEnv).2
    ∧ Ev.createIgnore ∈ (sync_to_github firstRunEnv).2
    ∧ (sync_to_github firstRunEnv).2.filter isCommitEv
        = [Ev.cmd (.commit INITIAL_COMMIT_MESSAGE)]
    ∧ Ev.cmd (.pushSetUpstream "main") ∈ (sync_to_github firstRunEnv).2
    ∧ ∀ b, Ev.cmd (.pull b) ∉ (sync_to_github firstRunEnv).2 :=
  C4_first_run firstRunEnv "main" (by decide) (by decide) (by decide) (by decide)
    (by decide) (by decide) (by decide) (by decide) (by decide) (by decide)
    (by decide) (by decide) (by decide) (by decide) (by decide) (by decide)
    (by decide) (by decide)

/-! ## C5: the PUSH_NEW state ignores the push result -/

/-- A run reaching the initial-commit path (existing repository, staged
changes, unborn `HEAD`). -/
def pushNewBaseEnv : Env :=
  { baseEnv with
    diffCached := ⟨1, "", ""⟩
    revParseVerifyHead := ⟨128, "", ""⟩ }

/-- The same run with the upstream-registration push failing. -/
def pushNewFailEnv : Env :=
  { pushNewBaseEnv with
    pushSetUpstreamRes := ⟨1, "", "error: failed to push some refs"⟩ }

/-- C5 counterexample: in the PUSH_NEW state the initial push is run with
`check_error=False` and its result is never inspected (line 352), so a run
whose upstream push fails (non-zero exit, `error:` on stderr) still reports
success — the claim's "the run's outcome is FAILED" is false here. -/
theorem C5_counterexample :
    (sync_to_github pushNewFailEnv).1 = true
    ∧ classify pushNewFailEnv.pushSetUpstreamRes = .ERROR
    ∧ Ev.cmd (.pushSetUpstream "main") ∈ (sync_to_github pushNewFailEnv).2 := by
  decide

/-- C5 (amended): in the PUSH_NEW state the push result is ignored: once the
initial commit has succeeded, the run reports success whatever result the
upstream-registration push returns. -/
theorem C5_pushnew_ignores_push_result (env : Env) (branch : String)
    (hv : raisesOn env.version = false)
    (hp : env.ping.returncode = 0)
    (hg : env.gitDirExists = true)
    (hr : raisesOn env.remoteList = false)
    (ho : strContains env.remoteList.stdout "origin" = true)
    (hu : strContains env.remoteList.stdout REMOTE_URL = true)
    (hc1 : raisesOn env.cfgAutocrlf = false)
    (hc2 : raisesOn env.cfgRenameLimit = false)
    (hc3 : raisesOn env.cfgRenames = false)
    (hig : env.gitignoreExists = true)
    (hb0 : raisesOn env.branchShowCurrent = false)
    (hb1 : env.branchShowCurrent.returncode = 0)
    (hb2 : pyStrip env.branchShowCurrent.stdout = branch)
    (hbne : branch ≠ "")
    (ha : raisesOn env.addAllRes = false)
    (hch : has_changes env = true)
    (hnh : env.revParseVerifyHead.returncode ≠ 0)
    (hcmt : raisesOn env.commitInitial = false) :
    (sync_to_github env).1 = true
    ∧ Ev.cmd (.pushSetUpstream branch) ∈ (sync_to_github env).2 := by
  have e1 := sync_to_github_existing env hv hp hg hr ho hu
  have e2 := sync_existing_rest_ok env hc1 hc2 hc3
  rw [hig] at e2
  have e3 := sync_common_true_ok env branch hb0 hb1 hb2 hbne ha
  have e4 := after_stage_initial env branch hch hnh hcmt
  rw [e4] at e3
  rw [e3] at e2
  rw [e2] at e1
  rw [e1]
  exact ⟨rfl, by simp [hasChangesEvs]⟩

/-- C5 witness: applying the amended theorem at the concrete environment
whose upstream push fails — no hypothesis of the theorem constrains the push
result, and the run still reports success. -/
theorem C5_witness :
    (sync_to_github pushNewFailEnv).1 = true
    ∧ Ev.cmd (.pushSetUpstream "main") ∈ (sync_to_github pushNewFailEnv).2 :=
  C5_pushnew_ignores_push_result pushNewFailEnv "main" (by decide) (by decide)
    (by decide) (by decide) (by decide) (by decide) (by decide) (by decide)
    (by decide) (by decide) (by decide) (by decide) (by decide) (by decide)
    (by decide) (by decide) (by decide) (by decide)

/-! ## C6: handling of a failed force-push -/

lemma sync_push_auth (env : Env) (branch : String)
    (hfail : env.pushForceRes.returncode ≠ 0)
    (hauth : strContains env.pushForceRes.stderr "Authentication failed" = true) :
    sync_push env branch = (false, [.cmd (.pushForce branch), .cmd .credHelper]) := by
  unfold sync_push
  simp [bne_iff_ne, hfail, hauth]

lemma sync_push_retry (env : Env) (branch : String)
    (hfail : env.pushForceRes.returncode ≠ 0)
    (hauth : strContains env.pushForceRes.stderr "Authentication failed" = false)
    (hup : strContains env.pushForceRes.stderr "has no upstream branch" = true) :
    sync_push env branch =
      (!raisesOn env.pushSetUpstreamRes,
        [.cmd (.pushForce branch), .cmd (.pushSetUpstream branch)]) := by
  unfold sync_push
  by_cases hrr : raisesOn env.pushSetUpstreamRes = true <;>
    simp [bne_iff_ne, hfail, hauth, hup, hrr]

lemma sync_push_other (env : Env) (branch : String)
    (hfail : env.pushForceRes.returncode ≠ 0)
    (hauth : strContains env.pushForceRes.stderr "Authentication failed" = false)
    (hup : strContains env.pushForceRes.stderr "has no upstream branch" = false) :
    sync_push env branch = (false, [.cmd (.pushForce branch)]) := by
  unfold sync_push
  simp [bne_iff_ne, hfail, hauth, hup]

/-- With changes, an existing `HEAD`, a successful timestamped commit and no
conflict marker in the pull output, the run reaches the force-push; the pull
is issued exactly when the remote branch exists. -/
lemma after_stage_push (env : Env) (branch : String)
    (hch : has_changes env = true)
    (hhead : env.revParseVerifyHead.returncode = 0)
    (hcmt : raisesOn env.commitSync = false)
    (hnoconf : strContains (env.pullRes.stdout ++ env.pullRes.stderr) "CONFLICT" = false) :
    sync_after_stage env branch =
      ((sync_push env branch).1,
        hasChangesEvs
          ++ [.cmd .revParseVerifyHead, .cmd (.commit (COMMIT_MESSAGE env.now)),
              .cmd (.lsRemoteHeads branch)]
          ++ (if env.lsRemoteHeads.returncode == 0 && pyStrip env.lsRemoteHeads.stdout != ""
              then [Ev.cmd (.pull branch)] else [])
          ++ (sync_push env branch).2) := by
  unfold sync_after_stage
  by_cases hrb : (env.lsRemoteHeads.returncode == 0 && pyStrip env.lsRemoteHeads.stdout != "") = true <;>
    simp [hch, hhead, hcmt, hnoconf, hrb]

lemma count_pushSetUpstream_auto_ignore (files : List FileEntry) (br : String) :
    (auto_ignore_large_files files).count (Ev.cmd (.pushSetUpstream br)) = 0 :=
  List.count_eq_zero.mpr (cmd_not_mem_auto_ignore files _ (by intro p h; cases h))

/-- C6: in every run reaching the force-push whose push exits non-zero:
an `Authentication failed` marker on its stderr makes the run fail;
otherwise a `has no upstream branch` marker triggers exactly one retry with
upstream-tracking registration, and the run succeeds iff that retry is not
classified as an error; otherwise the run fails. -/
theorem C6_push_failure_handling (env : Env) (branch : String)
    (hv : raisesOn env.version = false)
    (hp : env.ping.returncode = 0)
    (hg : env.gitDirExists = true)
    (hr : raisesOn env.remoteList = false)
    (ho : strContains env.remoteList.stdout "origin" = true)
    (hu : strContains env.remoteList.stdout REMOTE_URL = true)
    (hc1 : raisesOn env.cfgAutocrlf = false)
    (hc2 : raisesOn env.cfgRenameLimit = false)
    (hc3 : raisesOn env.cfgRenames = false)
    (hig : env.gitignoreExists = true)
    (hb0 : raisesOn env.branchShowCurrent = false)
    (hb1 : env.branchShowCurrent.returncode = 0)
    (hb2 : pyStrip env.branchShowCurrent.stdout = branch)
    (hbne : branch ≠ "")
    (ha : raisesOn env.addAllRes = false)
    (hch : has_changes env = true)
    (hhead : env.revParseVerifyHead.returncode = 0)
    (hcmt : raisesOn env.commitSync = false)
    (hnoconf : strContains (env.pullRes.stdout ++ env.pullRes.stderr) "CONFLICT" = false)
    (hfail : env.pushForceRes.returncode ≠ 0) :
    (strContains env.pushForceRes.stderr "Authentication failed" = true →
        (sync_to_github env).1 = false)
    ∧ (strContains env.pushForceRes.stderr "Authentication failed" = false →
        strContains env.pushForceRes.stderr "has no upstream branch" = true →
          (sync_to_github env).1 = (!raisesOn env.pushSetUpstreamRes)
          ∧ (sync_to_github env).2.count (Ev.cmd (.pushSetUpstream branch)) = 1)
    ∧ (strContains env.pushForceRes.stderr "Authentication failed" = false →
        strContains env.pushForceRes.stderr "has no upstream branch" = false →
          (sync_to_github env).1 = false) := by
  have e1 := sync_to_github_existing env hv hp hg hr ho hu
  have e2 := sync_existing_rest_ok env hc1 hc2 hc3
  rw [hig] at e2
  have e3 := sync_common_true_ok env branch hb0 hb1 hb2 hbne ha
  have e4 := after_stage_push env branch hch hhead hcmt hnoconf
  rw [e4] at e3
  rw [e3] at e2
  rw [e2] at e1
  refine ⟨?_, ?_, ?_⟩
  · intro hauth
    rw [e1, sync_push_auth env branch hfail hauth]
  · intro hauth hup
    rw [e1, sync_push_retry env branch hfail hauth hup]
    refine ⟨rfl, ?_⟩
    simp only [List.count_append, count_pushSetUpstream_auto_ignore, hasChangesEvs]
    by_cases hrb : (env.lsRemoteHeads.returncode == 0 && pyStrip env.lsRemoteHeads.stdout != "") = true <;>
      simp [hrb, List.count_cons, List.count_nil]
  · intro hauth hup
    rw [e1, sync_push_other env branch hfail hauth hup]

/-- A run whose force-push fails with an authentication error. -/
def authFailEnv : Env :=
  { baseEnv with
    diffCached := ⟨1, "", ""⟩
    pushForceRes := ⟨128, "", "fatal: Authentication failed for the remote"⟩ }

/-- C6 witness: the authentication-failure case at a concrete environment. -/
theorem C6_witness : (sync_to_github authFailEnv).1 = false :=
  (C6_push_failure_handling authFailEnv "main" (by decide) (by decide) (by decide)
    (by decide) (by decide) (by decide) (by decide) (by decide) (by decide)
    (by decide) (by decide) (by decide) (by decide) (by decide) (by decide)
    (by decide) (by decide) (by decide) (by decide) (by decide)).1 (by decide)

/-! ## C3: a run with no changes mutates no history -/

/-- Commands that mutate history (create commits or move branch tips). -/
def mutatesHistory : Ev → Bool
  | .cmd (.commit _) => true
  | .cmd (.pull _) => true
  | .cmd (.pushForce _) => true
  | .cmd (.pushSetUpstream _) => true
  | _ => false

/-- A stage result whose trace mutates no history and which, once the change
probe has run (the staged-diff command appears), reports success. -/
def SafeTrace (x : Bool × List Ev) : Prop :=
  x.2.all (fun e => !mutatesHistory e) = true
    ∧ (Ev.cmd .diffCached ∈ x.2 → x.1 = true)

lemma safe_fail (t : List Ev) (ht : t.all (fun e => !mutatesHistory e) = true)
    (hd : Ev.cmd .diffCached ∉ t) : SafeTrace (false, t) :=
  ⟨ht, fun hm => absurd hm hd⟩

lemma safe_true (t : List Ev) (ht : t.all (fun e => !mutatesHistory e) = true) :
    SafeTrace (true, t) :=
  ⟨ht, fun _ => rfl⟩

lemma safe_append_front (t : List Ev) (x : Bool × List Ev)
    (ht : t.all (fun e => !mutatesHistory e) = true)
    (hd : Ev.cmd .diffCached ∉ t) (hx : SafeTrace x) :
    SafeTrace (x.1, t ++ x.2) := by
  refine ⟨by simp [List.all_append, ht, hx.1], fun hm => ?_⟩
  rcases List.mem_append.mp hm with h | h
  · exact absurd h hd
  · exact hx.2 h

lemma after_stage_no_changes (env : Env) (branch : String)
    (h : has_changes env = false) :
    sync_after_stage env branch = (true, hasChangesEvs) := by
  unfold sync_after_stage
  simp [h]

lemma all_nonMut_auto_ignore (files : List FileEntry) :
    (auto_ignore_large_files files).all (fun e => !mutatesHistory e) = true := by
  rw [List.all_eq_true]
  intro e he
  rcases auto_ignore_events files e he with ⟨p, rfl⟩ | ⟨p, rfl⟩ <;> rfl

lemma all_nonMut_addDirs (ds : List String) :
    (ds.map fun d => Ev.cmd (.addDir d)).all (fun e => !mutatesHistory e) = true := by
  rw [List.all_eq_true]
  intro e he
  rcases List.mem_map.mp he with ⟨d, _, rfl⟩
  rfl

lemma gcb_trace_cases (r1 r2 : CmdResult) :
    (get_current_branch r1 r2).2 = [.cmd .branchShowCurrent]
    ∨ (get_current_branch r1 r2).2 = [.cmd .branchShowCurrent, .cmd .revParseAbbrev] := by
  unfold get_current_branch
  split_ifs <;> simp

lemma all_nonMut_gcb (r1 r2 : CmdResult) :
    ((get_current_branch r1 r2).2).all (fun e => !mutatesHistory e) = true := by
  rcases gcb_trace_cases r1 r2 with h | h <;> rw [h] <;> decide

lemma diffCached_not_mem_gcb (r1 r2 : CmdResult) :
    Ev.cmd .diffCached ∉ (get_current_branch r1 r2).2 := by
  rcases gcb_trace_cases r1 r2 with h | h <;> rw [h] <;> decide

lemma diffCached_not_mem_auto_ignore (files : List FileEntry) :
    Ev.cmd .diffCached ∉ auto_ignore_large_files files :=
  cmd_not_mem_auto_ignore files _ (by intro p h; cases h)

lemma diffCached_not_mem_addDirs (ds : List String) :
    Ev.cmd .diffCached ∉ ds.map (fun d => Ev.cmd (.addDir d)) := by
  intro h
  rcases List.mem_map.mp h with ⟨d, _, hd⟩
  simp at hd

lemma all_append_ev (s t : List Ev) (p : Ev → Bool)
    (hs : s.all p = true) (ht : t.all p = true) : (s ++ t).all p = true := by
  simp only [List.all_append, hs, ht, Bool.and_self]

lemma not_mem_append_ev {e : Ev} {s t : List Ev} (hs : e ∉ s) (ht : e ∉ t) :
    e ∉ s ++ t := by
  rw [List.mem_append]
  rintro (h | h)
  · exact hs h
  · exact ht h

lemma t0_all_nonMut (ig : Bool) :
    ((if (!ig) = true then [Ev.createIgnore, Ev.cmd .addGitignore] else []).all
      (fun e => !mutatesHistory e)) = true := by
  cases ig <;> decide

lemma t0_diffCached_not_mem (ig : Bool) :
    Ev.cmd .diffCached
      ∉ (if (!ig) = true then [Ev.createIgnore, Ev.cmd .addGitignore] else []) := by
  cases ig <;> decide

lemma safe_common (env : Env) (ig : Bool) (h : has_changes env = false) :
    SafeTrace (sync_common env ig) := by
  have hs : ∀ branch, SafeTrace (sync_after_stage env branch) := fun branch => by
    rw [after_stage_no_changes env branch h]
    exact safe_true _ (by decide)
  unfold sync_common
  by_cases h0 : (!ig && raisesOn env.addGitignoreRes) = true
  · rw [if_pos h0]
    exact safe_fail _ (t0_all_nonMut ig) (t0_diffCached_not_mem ig)
  · rw [if_neg h0]
    dsimp only
    have hT_all : ((get_current_branch env.branchShowCurrent env.revParseAbbrev).2).all
        (fun e => !mutatesHistory e) = true :=
      all_nonMut_gcb env.branchShowCurrent env.revParseAbbrev
    have hT_mem : Ev.cmd .diffCached
        ∉ (get_current_branch env.branchShowCurrent env.revParseAbbrev).2 :=
      diffCached_not_mem_gcb env.branchShowCurrent env.revParseAbbrev
    cases hE : (get_current_branch env.branchShowCurrent env.revParseAbbrev).1 with
    | error e =>
      exact safe_fail _
        (all_append_ev _ _ _ (t0_all_nonMut ig) hT_all)
        (not_mem_append_ev (t0_diffCached_not_mem ig) hT_mem)
    | ok branch =>
      dsimp only
      by_cases ha : raisesOn env.addAllRes = true
      · rw [if_pos ha]
        simp only [List.append_assoc]
        exact safe_append_front _ _ (t0_all_nonMut ig) (t0_diffCached_not_mem ig)
          (safe_append_front _ _ hT_all hT_mem
            (safe_append_front _ _ (by decide) (by decide)
              (safe_append_front _ _ (all_nonMut_auto_ignore _)
                  (diffCached_not_mem_auto_ignore _)
                (safe_append_front _ _ (by decide) (by decide)
                  (safe_append_front _ _ (all_nonMut_addDirs _)
                      (diffCached_not_mem_addDirs _)
                    (hs branch))))))
      · rw [if_neg ha]
        simp only [List.append_assoc]
        exact safe_append_front _ _ (t0_all_nonMut ig) (t0_diffCached_not_mem ig)
          (safe_append_front _ _ hT_all hT_mem
            (safe_append_front _ _ (by decide) (by decide)
              (safe_append_front _ _ (all_nonMut_auto_ignore _)
                  (diffCached_not_mem_auto_ignore _)
                (safe_append_front _ _ (by decide) (by decide)
                  (hs branch)))))

lemma ign_all_nonMut (b : Bool) :
    ((if b = true then ([] : List Ev) else [Ev.createIgnore]).all
      (fun e => !mutatesHistory e)) = true := by
  cases b <;> decide

lemma ign_not_mem (b : Bool) :
    Ev.cmd .diffCached ∉ (if b = true then ([] : List Ev) else [Ev.createIgnore]) := by
  cases b <;> decide

lemma configs_all_nonMut (env : Env) :
    ((apply_git_configs env).2).all (fun e => !mutatesHistory e) = true := by
  unfold apply_git_configs
  split_ifs <;> decide

lemma configs_diffCached_not_mem (env : Env) :
    Ev.cmd .diffCached ∉ (apply_git_configs env).2 := by
  unfold apply_git_configs
  split_ifs <;> decide

lemma safe_existing_rest (env : Env) (h : has_changes env = false) :
    SafeTrace (sync_existing_rest env) := by
  unfold sync_existing_rest
  by_cases hc : (apply_git_configs env).1 = true
  · simp only [hc, Bool.not_true, if_false]
    rw [List.append_assoc]
    exact safe_append_front _ _ (configs_all_nonMut env) (configs_diffCached_not_mem env)
      (safe_append_front _ _ (by decide) (by decide)
        (safe_common env env.gitignoreExists h))
  · rw [Bool.not_eq_true] at hc
    simp only [hc, Bool.not_false, if_true]
    exact safe_fail _ (configs_all_nonMut env) (configs_diffCached_not_mem env)

/-- C3: for every run whose change probe reports no changes, the trace
contains no commit, pull or push command, and if the probe was reached the
run reports success. -/
theorem C3_no_changes_no_mutation (env : Env) (h : has_changes env = false) :
    (sync_to_github env).2.all (fun e => !mutatesHistory e) = true
    ∧ (Ev.cmd .diffCached ∈ (sync_to_github env).2 → (sync_to_github env).1 = true) := by
  have hsafe : SafeTrace (sync_to_github env) := by
    unfold sync_to_github
    by_cases hv : raisesOn env.version = true
    · simp only [hv, if_true]
      exact safe_fail _ (by decide) (by decide)
    · simp only [hv, if_false]
      by_cases hp : (env.ping.returncode != 0) = true
      · simp only [hp, if_true]
        exact safe_fail _ (by decide) (by decide)
      · simp only [hp, if_false]
        by_cases hg : env.gitDirExists = true
        · simp only [hg, Bool.not_true, if_false]
          by_cases hr : raisesOn env.remoteList = true
          · simp only [hr, if_true]
            exact safe_fail _ (by decide) (by decide)
          · simp only [hr, if_false]
            by_cases ho : strContains env.remoteList.stdout "origin" = true
            · simp only [ho, if_true]
              by_cases hu : strContains env.remoteList.stdout REMOTE_URL = true
              · simp only [hu, if_true]
                exact safe_append_front _ _ (by decide) (by decide)
                  (safe_existing_rest env h)
              · simp only [hu, if_false]
                by_cases hsu : raisesOn env.remoteSetUrl = true
                · simp only [hsu, if_true]
                  exact safe_fail _ (by decide) (by decide)
                · simp only [hsu, if_false]
                  exact safe_append_front _ _ (by decide) (by decide)
                    (safe_existing_rest env h)
            · simp only [ho, if_false]
              by_cases hra : raisesOn env.remoteAdd = true
              · simp only [hra, if_true]
                exact safe_fail _ (by decide) (by decide)
              · simp only [hra, if_false]
                exact safe_append_front _ _ (by decide) (by decide)
                  (safe_existing_rest env h)
        · rw [Bool.not_eq_true] at hg
          simp only [hg, Bool.not_false, if_true]
          by_cases hi : raisesOn env.initRes = true
          · simp only [hi, if_true]
            exact safe_fail _ (by decide) (by decide)
          · simp only [hi, if_false]
            by_cases hlr : (env.lsRemoteUrl.returncode != 0) = true
            · simp only [hlr, if_true]
              exact safe_fail _ (by decide) (by decide)
            · simp only [hlr, if_false]
              by_cases hra : raisesOn env.remoteAdd = true
              · simp only [hra, if_true]
                exact safe_fail _ (by decide) (by decide)
              · simp only [hra, if_false]
                by_cases hcf : (apply_git_configs env).1 = true
                · simp only [hcf, Bool.not_true, if_false]
                  simp only [List.append_assoc]
                  exact safe_append_front _ _ (by decide) (by decide)
                    (safe_append_front _ _ (by decide) (by decide)
                      (safe_append_front _ _ (by decide) (by decide)
                        (safe_append_front _ _ (by decide) (by decide)
                          (safe_append_front _ _ (by decide) (by decide)
                            (safe_append_front _ _ (ign_all_nonMut _) (ign_not_mem _)
                              (safe_append_front _ _ (configs_all_nonMut env)
                                  (configs_diffCached_not_mem env)
                                (safe_common env true h)))))))
                · rw [Bool.not_eq_true] at hcf
                  simp only [hcf, Bool.not_false, if_true]
                  exact safe_fail _
                    (all_append_ev _ _ _
                      (all_append_ev _ _ _ (by decide) (ign_all_nonMut _))
                      (configs_all_nonMut env))
                    (not_mem_append_ev
                      (not_mem_append_ev (by decide) (ign_not_mem _))
                      (configs_diffCached_not_mem env))
  exact hsafe

/-- C3 witness: a clean run at the concrete base environment. -/
theorem C3_witness :
    (sync_to_github baseEnv).2.all (fun e => !mutatesHistory e) = true
    ∧ (Ev.cmd .diffCached ∈ (sync_to_github baseEnv).2
        → (sync_to_github baseEnv).1 = true) :=
  C3_no_changes_no_mutation baseEnv (by decide)

/-! ## The recommendation script (`src/scripts/recommendation-script.py`)

Channels, history entries and settings mirror the JSON records the script
reads with `.get`: an absent `id` is `none`, `category` defaults to `""`,
`viewTimeSeconds` defaults to `0`.  The script's floating-point scores are
modelled as rationals. -/

/-- A channel record: `c.get('id')` and `c.get('category','')`. -/
structure Channel where
  id : Option String
  category : String
deriving DecidableEq

/-- A history entry: `entry.get('channelId')` and
`entry.get('viewTimeSeconds', 0)`. -/
structure HistEntry where
  channelId : Option String
  viewTimeSeconds : ℚ
deriving DecidableEq

/-- `settings.get('recommendationFactors',{}).get('genre', 0.5)` and
`settings.get('maxRecommendations', 10)`. -/
structure RSettings where
  genre : ℚ
  maxRecommendations : Nat
deriving DecidableEq

/-- The parsed input object. -/
structure RInput where
  history : List HistEntry
  channels : List Channel
  currentChannel : Option String
  settings : RSettings
deriving DecidableEq

/-- Python `s.lower()` for ASCII text. -/
def lowerStr (s : String) : String := ⟨s.data.map Char.toLower⟩

/-- `next((c for c in channels if c.get('id') == channel_id), None)`. -/
def findChannel (cs : List Channel) (cid : Option String) : Option Channel :=
  cs.find? (fun c => c.id == cid)

/-- The lowered category a history entry contributes to
`watched_categories`, if any: the entry's channel must be found among the
(filtered) channels and its lowered category must be non-empty. -/
def entryCat (cs : List Channel) (e : HistEntry) : Option String :=
  match findChannel cs e.channelId with
  | some ch => if lowerStr ch.category = "" then none else some (lowerStr ch.category)
  | none => none

/-- `category in watched_categories`. -/
def catWatched (cs : List Channel) (hist : List HistEntry) (cat : String) : Bool :=
  hist.any (fun e => entryCat cs e == some cat)

/-- `watched_categories[category]`: total view time accumulated for `cat`. -/
def catTime (cs : List Channel) (hist : List HistEntry) (cat : String) : ℚ :=
  ((hist.filter (fun e => entryCat cs e == some cat)).map HistEntry.viewTimeSeconds).sum

/-- One channel's raw score (lines 56-67): the category weight times the
watched time for the channel's lowered category, when that category was
watched; else `0`. -/
def rawScore (cs : List Channel) (hist : List HistEntry) (w : ℚ) (ch : Channel) : ℚ :=
  if catWatched cs hist (lowerStr ch.category)
  then catTime cs hist (lowerStr ch.category) * w else 0

/-- Python dict assignment `channel_scores[channel_id] = score`. -/
def storeScore (m : List (Option String × ℚ)) (k : Option String) (v : ℚ) :
    List (Option String × ℚ) :=
  if m.any (fun p => p.1 == k) then m.map (fun p => if p.1 == k then (k, v) else p)
  else m ++ [(k, v)]

/-- One iteration of the scoring loop: store the channel's score and bump
`max_score` when exceeded. -/
def scoreStep (cs : List Channel) (hist : List HistEntry) (w : ℚ)
    (acc : List (Option String × ℚ) × ℚ) (ch : Channel) :
    List (Option String × ℚ) × ℚ :=
  let sc := rawScore cs hist w ch
  (storeScore acc.1 ch.id sc, if acc.2 < sc then sc else acc.2)

/-- The scoring loop (lines 56-71): `channel_scores` plus `max_score`,
starting from the empty dict and `max_score = 1`. -/
def scoresLoop (cs : List Channel) (hist : List HistEntry) (w : ℚ) :
    List (Option String × ℚ) × ℚ :=
  cs.foldl (scoreStep cs hist w) ([], 1)

/-- `channel_scores.get(channel_id, 0)`. -/
def getScore (m : List (Option String × ℚ)) (k : Option String) : ℚ :=
  match m.find? (fun p => p.1 == k) with
  | some p => p.2
  | none => 0

/-- The recommendation list the script prints (lines 34-93): drop the
current channel, score against history (normalizing by the running maximum,
which starts at 1) when history is non-empty, sort by score descending
(stable), and truncate to `maxRecommendations`. -/
def recommendation_script (inp : RInput) : List (Channel × ℚ) :=
  let cs := inp.channels.filter (fun c => !(c.id == inp.currentChannel))
  let m :=
    if inp.history.isEmpty then []
    else
      let sm := scoresLoop cs inp.history inp.settings.genre
      sm.1.map (fun p => (p.1, p.2 / sm.2))
  let recs := cs.map (fun ch => (ch, getScore m ch.id))
  (recs.mergeSort (fun a b => decide (b.2 ≤ a.2))).take inp.settings.maxRecommendations

/-- The script's top level (lines 11-109): a processing failure of any kind
(modelled as the absence of a parsed input) prints an error object with an
empty recommendation list and exits with status 1; otherwise it prints the
recommendations and exits 0. -/
def runScript : Option RInput → List (Channel × ℚ) × Nat
  | none => ([], 1)
  | some inp => (recommendation_script inp, 0)

/-! ## C10: properties of the recommendation output -/

lemma storeScore_mem (m : List (Option String × ℚ)) (k : Option String) (v : ℚ)
    (q : Option String × ℚ) (hq : q ∈ storeScore m k v) : q ∈ m ∨ q = (k, v) := by
  unfold storeScore at hq
  split at hq
  · rcases List.mem_map.mp hq with ⟨p, hp, rfl⟩
    by_cases hk : (p.1 == k) = true
    · rw [if_pos hk]
      exact Or.inr rfl
    · rw [if_neg hk]
      exact Or.inl hp
  · rcases List.mem_append.mp hq with h | h
    · exact Or.inl h
    · rw [List.mem_singleton] at h
      exact Or.inr h

lemma rawScore_nonneg (cs : List Channel) (hist : List HistEntry) (w : ℚ)
    (hw : 0 ≤ w) (hh : ∀ e ∈ hist, 0 ≤ e.viewTimeSeconds) (ch : Channel) :
    0 ≤ rawScore cs hist w ch := by
  unfold rawScore
  split
  · apply mul_nonneg _ hw
    unfold catTime
    apply List.sum_nonneg
    intro v hv
    rcases List.mem_map.mp hv with ⟨e, he, rfl⟩
    exact hh e (List.mem_of_mem_filter he)
  · exact le_refl 0

lemma scoresFold_bounds (cs : List Channel) (hist : List HistEntry) (w : ℚ)
    (h0 : ∀ ch, 0 ≤ rawScore cs hist w ch) :
    ∀ (l : List Channel) (acc : List (Option String × ℚ) × ℚ),
      1 ≤ acc.2 → (∀ q ∈ acc.1, 0 ≤ q.2 ∧ q.2 ≤ acc.2) →
      1 ≤ (l.foldl (scoreStep cs hist w) acc).2
      ∧ ∀ q ∈ (l.foldl (scoreStep cs hist w) acc).1,
          0 ≤ q.2 ∧ q.2 ≤ (l.foldl (scoreStep cs hist w) acc).2 := by
  intro l
  induction l with
  | nil =>
    intro acc h1 h2
    exact ⟨h1, h2⟩
  | cons c t ih =>
    intro acc h1 h2
    rw [List.foldl_cons]
    apply ih
    · show 1 ≤ (scoreStep cs hist w acc c).2
      unfold scoreStep
      dsimp only
      split
      next hlt => exact le_trans h1 (le_of_lt hlt)
      next => exact h1
    · intro q hq
      have hq' : q ∈ storeScore acc.1 c.id (rawScore cs hist w c) := hq
      rcases storeScore_mem _ _ _ q hq' with hm | rfl
      · rcases h2 q hm with ⟨ha, hb⟩
        refine ⟨ha, le_trans hb ?_⟩
        show acc.2 ≤ (scoreStep cs hist w acc c).2
        unfold scoreStep
        dsimp only
        split
        next hlt => exact le_of_lt hlt
        next => exact le_refl _
      · refine ⟨h0 c, ?_⟩
        show rawScore cs hist w c ≤ (scoreStep cs hist w acc c).2
        unfold scoreStep
        dsimp only
        split
        next => exact le_refl _
        next hge => exact le_of_not_lt hge

lemma getScore_bounds (m : List (Option String × ℚ)) (mx : ℚ) (hmx : 1 ≤ mx)
    (hm : ∀ q ∈ m, 0 ≤ q.2 ∧ q.2 ≤ mx) (k : Option String) :
    0 ≤ getScore (m.map (fun p => (p.1, p.2 / mx))) k
    ∧ getScore (m.map (fun p => (p.1, p.2 / mx))) k ≤ 1 := by
  unfold getScore
  cases hf : (m.map (fun p => (p.1, p.2 / mx))).find? (fun p => p.1 == k) with
  | none =>
    constructor <;> norm_num
  | some p =>
    have hp := List.mem_of_find?_eq_some hf
    rcases List.mem_map.mp hp with ⟨q, hq, rfl⟩
    rcases hm q hq with ⟨h1, h2⟩
    have hmx0 : (0 : ℚ) < mx := lt_of_lt_of_le zero_lt_one hmx
    exact ⟨div_nonneg h1 (le_of_lt hmx0), (div_le_one hmx0).mpr h2⟩

/-- C10: on a well-formed input (non-negative view times and genre weight;
`maxRecommendations` a natural number), the recommendation list never
contains the current channel, every score lies in `[0, 1]` (normalization
divides by the running maximum, which starts at `1`), the list is sorted by
score in descending order, and its length is at most `maxRecommendations`;
a processing error yields an empty recommendation list with exit status 1. -/
theorem C10_recommendation_script (inp : RInput)
    (hw : 0 ≤ inp.settings.genre)
    (hh : ∀ e ∈ inp.history, 0 ≤ e.viewTimeSeconds) :
    (∀ x ∈ recommendation_script inp, ¬(x.1.id = inp.currentChannel))
    ∧ (∀ x ∈ recommendation_script inp, 0 ≤ x.2 ∧ x.2 ≤ 1)
    ∧ (recommendation_script inp).Pairwise (fun a b => b.2 ≤ a.2)
    ∧ (recommendation_script inp).length ≤ inp.settings.maxRecommendations
    ∧ runScript none = ([], 1) := by
  refine ⟨?_, ?_, ?_, ?_, rfl⟩
  · intro x hx
    simp only [recommendation_script] at hx
    replace hx := List.take_subset _ _ hx
    rw [List.mem_mergeSort] at hx
    rcases List.mem_map.mp hx with ⟨ch, hch, rfl⟩
    have hne := List.of_mem_filter hch
    simp only [Bool.not_eq_true', beq_eq_false_iff_ne, ne_eq] at hne
    exact hne
  · intro x hx
    simp only [recommendation_script] at hx
    replace hx := List.take_subset _ _ hx
    rw [List.mem_mergeSort] at hx
    rcases List.mem_map.mp hx with ⟨ch, hch, rfl⟩
    by_cases hH : inp.history.isEmpty = true
    · rw [if_pos hH]
      exact ⟨le_refl 0, zero_le_one⟩
    · rw [if_neg hH]
      have h0 : ∀ c, 0 ≤ rawScore
          (inp.channels.filter (fun c => !(c.id == inp.currentChannel)))
          inp.history inp.settings.genre c :=
        rawScore_nonneg _ _ _ hw hh
      have hb := scoresFold_bounds
        (inp.channels.filter (fun c => !(c.id == inp.currentChannel)))
        inp.history inp.settings.genre h0
        (inp.channels.filter (fun c => !(c.id == inp.currentChannel)))
        ([], 1) (by norm_num) (by simp)
      exact getScore_bounds _ _ hb.1 hb.2 ch.id
  · have htrans : ∀ (a b c : Channel × ℚ),
        decide (b.2 ≤ a.2) = true → decide (c.2 ≤ b.2) = true →
        decide (c.2 ≤ a.2) = true := by
      intro a b c hab hbc
      rw [decide_eq_true_eq] at *
      exact le_trans hbc hab
    have htotal : ∀ (a b : Channel × ℚ),
        (decide (b.2 ≤ a.2) || decide (a.2 ≤ b.2)) = true := by
      intro a b
      rcases le_total b.2 a.2 with h | h <;> simp [h]
    have hsort := List.sorted_mergeSort htrans htotal
      ((inp.channels.filter (fun c => !(c.id == inp.currentChannel))).map
        (fun ch => (ch, getScore
          (if inp.history.isEmpty then []
           else
            let sm := scoresLoop
              (inp.channels.filter (fun c => !(c.id == inp.currentChannel)))
              inp.history inp.settings.genre
            sm.1.map (fun p => (p.1, p.2 / sm.2))) ch.id)))
    have hsort2 := hsort.imp (fun h => of_decide_eq_true h)
    exact hsort2.sublist (List.take_sublist _ _)
  · exact List.length_take_le _ _

/-- A concrete well-formed input: one watched channel, three channels, a
current channel to exclude. -/
def recInput : RInput :=
  ⟨[⟨some "a", 100⟩],
   [⟨some "a", "News"⟩, ⟨some "b", "Sports"⟩, ⟨some "c", "News"⟩],
   some "c", ⟨1/2, 10⟩⟩

/-- C10 witness: the theorem applied to the concrete input. -/
theorem C10_witness :
    (∀ x ∈ recommendation_script recInput, ¬(x.1.id = recInput.currentChannel))
    ∧ (∀ x ∈ recommendation_script recInput, 0 ≤ x.2 ∧ x.2 ≤ 1)
    ∧ (recommendation_script recInput).Pairwise (fun a b => b.2 ≤ a.2)
    ∧ (recommendation_script recInput).length ≤ recInput.settings.maxRecommendations
    ∧ runScript none = ([], 1) :=
  C10_recommendation_script recInput
    (by
      show (0 : ℚ) ≤ 1 / 2
      norm_num)
    (by
      intro e he
      rcases List.mem_singleton.mp he with rfl
      show (0 : ℚ) ≤ 100
      norm_num)

end HighCast
